import Mathlib

/-!
Formal verification of the capture-synthesis engine of the
Synthetic-Radio-Frequency-Data-Generator repository (`generator.py`).

The Python source is shallowly embedded: pure computations become Lean
functions over `ℚ` (Python floats are modelled as exact rationals, `np.pi`
as the IEEE-754 double closest to π), fallible code returns
`Option`/`Except`, and the per-capture control flow of the generator
functions is rendered as explicit state/effect passing.  The C modulation
and channel modules (`cmodules/`) live outside the embedded source; where
a property depends on them they appear either as explicit function
parameters or as definitions modelled from the specification.
-/

namespace RFGen

/-- generator.py line 13: the fixed guard length `buf = 4096`. -/
def buf : Nat := 4096

/-- generator.py line 14: the half guard `halfbuf = 2048`. -/
def halfbuf : Nat := 2048

/-- The IEEE-754 double value of `np.pi`, as an exact rational
(0x400921FB54442D18 = 884279719003555 / 2^48). -/
def np_pi : ℚ := 884279719003555 / 281474976710656

/-- Python slicing `xs[t:-t]` on a list: for `t = 0` Python yields the
empty slice `xs[0:0]`; for `t > 0` it keeps indices `t .. len-t-1`. -/
def pySliceTrim (t : Nat) (xs : List α) : List α :=
  if t = 0 then [] else (xs.drop t).take (xs.length - 2 * t)

/-- generator.py lines 254-255 / 367-369 / 431-433 / 525-527 / 572-574:
the downstream trim `xs[halfbuf:-halfbuf]`. -/
def trim_halfbuf (xs : List ℚ) : List ℚ :=
  pySliceTrim halfbuf xs

/-- Helper for `decimate`: `k` counts the samples still to skip before the
next kept sample. -/
def decimateAux (sps : Nat) : List α → Nat → List α
  | [], _ => []
  | a :: rest, 0 => a :: decimateAux sps rest (sps - 1)
  | _ :: rest, k + 1 => decimateAux sps rest k

/-- Python strided slicing `xs[::sps]` for `sps ≥ 1`: keep indices
`0, sps, 2·sps, …`. -/
def decimate (sps : Nat) (xs : List α) : List α :=
  decimateAux sps xs 0

/-- generator.py lines 38-89, `calculate_ber_BPSK`: trim `trim` samples
from each end of the four component streams, form complex symbol streams,
decimate by `sps`, threshold the real part at zero, and return the
fraction of mismatched bits.  The Python division `0/0` at `total_bits = 0` is an
undefined result (NaN under numpy scalar division), modelled as `none`. -/
def calculate_ber_BPSK (xI xQ yI yQ : List ℚ) (sps trim : Nat) : Option ℚ :=
  let tx_I := pySliceTrim trim xI
  let tx_Q := pySliceTrim trim xQ
  let rx_I := pySliceTrim trim yI
  let rx_Q := pySliceTrim trim yQ
  let tx_complex := tx_I.zip tx_Q
  let rx_complex := rx_I.zip rx_Q
  let tx_symbols := decimate sps tx_complex
  let rx_symbols := decimate sps rx_complex
  let tx_bits := tx_symbols.map (fun p => decide (0 ≤ p.1))
  let rx_bits := rx_symbols.map (fun p => decide (0 ≤ p.1))
  let bit_errors := ((tx_bits.zip rx_bits).filter (fun p => p.1 != p.2)).length
  let total_bits := tx_bits.length
  if total_bits = 0 then none
  else some ((bit_errors : ℚ) / (total_bits : ℚ))

/-- The BER algorithm as the specification words it (§4.7): trim both
streams, keep every `sps`-th sample, decide a bit per symbol from the sign
of the real part.  Only the real (in-phase) component enters a decision. -/
def bpsk_bits (re : List ℚ) (sps trim : Nat) : List Bool :=
  (decimate sps (pySliceTrim trim re)).map (fun r => decide (0 ≤ r))

/-- The BER value as the specification words it: fraction of symbol positions at which
the transmitted and received bit decisions differ. -/
def ber_fraction (xI yI : List ℚ) (sps trim : Nat) : ℚ :=
  let t := bpsk_bits xI sps trim
  let r := bpsk_bits yI sps trim
  (((t.zip r).filter (fun p => p.1 != p.2)).length : ℚ) / (t.length : ℚ)

/-- generator.py lines 293-298: the per-SNR BER accumulator update.  The
measured value is appended unconditionally (whether or not it is
defined); `ber_dict` is modelled as an association list. -/
def updateBerDict (d : List (ℚ × List (Option ℚ))) (snr : ℚ) (ber : Option ℚ) :
    List (ℚ × List (Option ℚ)) :=
  if d.any (fun p => p.1 == snr) then
    d.map (fun p => if p.1 = snr then (p.1, p.2 ++ [ber]) else p)
  else
    d ++ [(snr, [ber])]

/-- A sampled channel-parameter tuple from the configured pool (§3): a
3-tuple for AWGN, a 6-tuple for Rayleigh, a 7-tuple for Rician.  In every
shape the first three positions are `snr`, `freq_offset`, `phase_offset`,
matching the positional indexing `channel_params[i][0..2]` used by the
AM/FM/FSK/noise generators. -/
inductive ChannelTuple where
  | awgn (snr fo po : ℚ)
  | rayleigh (snr fo po : ℚ) (awgn_flag : Int) (path_delays path_gains : List ℚ)
  | rician (snr fo po k_factor : ℚ) (awgn_flag : Int) (path_delays path_gains : List ℚ)
deriving DecidableEq

/-- Position 0 of a channel tuple: the SNR. -/
def ChannelTuple.snr : ChannelTuple → ℚ
  | .awgn s _ _ => s
  | .rayleigh s _ _ _ _ _ => s
  | .rician s _ _ _ _ _ _ => s

/-- Position 1 of a channel tuple: the configured frequency offset. -/
def ChannelTuple.fo : ChannelTuple → ℚ
  | .awgn _ f _ => f
  | .rayleigh _ f _ _ _ _ => f
  | .rician _ f _ _ _ _ _ => f

/-- Position 2 of a channel tuple: the configured phase offset. -/
def ChannelTuple.po : ChannelTuple → ℚ
  | .awgn _ _ p => p
  | .rayleigh _ _ p _ _ _ => p
  | .rician _ _ p _ _ _ _ => p

/-- The channel parameters as unpacked by `generate_linear`
(generator.py lines 128-181) for the matching channel type. -/
inductive LinExtract where
  | awgnP (snr fo po : ℚ)
  | rayleighP (snr fo po : ℚ) (num_taps : Nat) (awgn : Int)
      (path_delays path_gains : List ℚ)
  | ricianP (snr fo po k_factor : ℚ) (num_taps : Nat) (awgn : Int)
      (path_delays path_gains : List ℚ)
deriving DecidableEq

/-- The SNR recorded by `generate_linear` from the extracted parameters. -/
def LinExtract.snr : LinExtract → ℚ
  | .awgnP s _ _ => s
  | .rayleighP s _ _ _ _ _ _ => s
  | .ricianP s _ _ _ _ _ _ _ => s

/-- The frequency offset recorded by `generate_linear` (set at extraction,
with no scaling, generator.py lines 132/149/172). -/
def LinExtract.fo : LinExtract → ℚ
  | .awgnP _ f _ => f
  | .rayleighP _ f _ _ _ _ _ => f
  | .ricianP _ f _ _ _ _ _ _ => f

/-- The phase offset recorded by `generate_linear`. -/
def LinExtract.po : LinExtract → ℚ
  | .awgnP _ _ p => p
  | .rayleighP _ _ p _ _ _ _ => p
  | .ricianP _ _ p _ _ _ _ _ => p

/-- generator.py lines 128-183: the per-center-frequency channel-parameter
extraction of `generate_linear`.  The string `channel_type` selects the
unpacking; for `rayleigh`/`rician` the `assert len(path_delays) ==
len(path_gains)` guards the tuple; any other channel type hits the final
`raise ValueError("Undefined channel type.")`.  A tuple whose shape does
not match the declared channel type fails the Python tuple unpacking. -/
def extract_channel_params (channel_type : String) (cp : ChannelTuple) :
    Except String LinExtract :=
  if channel_type = "awgn" then
    match cp with
    | .awgn s f p => .ok (.awgnP s f p)
    | _ => .error "not enough values to unpack"
  else if channel_type = "rayleigh" then
    match cp with
    | .rayleigh s f p a d g =>
      if d.length = g.length then .ok (.rayleighP s f p d.length a d g)
      else .error "Path delays and path gains must have the same length."
    | _ => .error "too many values to unpack"
  else if channel_type = "rician" then
    match cp with
    | .rician s f p k a d g =>
      if d.length = g.length then .ok (.ricianP s f p k d.length a d g)
      else .error "Path delays and path gains must have the same length."
    | _ => .error "too many values to unpack"
  else .error "Undefined channel type."

/-- The externally visible actions of one capture of `generate_linear`:
calls into the C modules (lines 206, 209, 215/217/235) and the final
`save_sigmf` (line 301). -/
inductive Effect where
  | modulate
  | rrc_tx
  | channelCall
  | save
deriving DecidableEq

/-- generator.py lines 126-265: the center-frequency loop of one capture
of `generate_linear`, reduced to its control flow.  Each iteration first
extracts the channel parameters (raising stops the run with no further
effect) and then performs the modulate → shape → channel calls. -/
def linear_center_loop (channel_type : String) (cp : ChannelTuple)
    (cfs : List ℚ) (eff : List Effect) : List Effect × Except String Unit :=
  match cfs with
  | [] => (eff, .ok ())
  | _ :: rest =>
    match extract_channel_params channel_type cp with
    | .error e => (eff, .error e)
    | .ok _ =>
      linear_center_loop channel_type cp rest
        (eff ++ [Effect.modulate, Effect.rrc_tx, Effect.channelCall])

/-- One capture of `generate_linear` (lines 118-301): run the
center-frequency loop, then write the capture (`save_sigmf`, line 301)
only if no iteration raised. -/
def linear_capture (channel_type : String) (cp : ChannelTuple)
    (cfs : List ℚ) : List Effect × Except String Unit :=
  let r := linear_center_loop channel_type cp cfs []
  match r.2 with
  | .ok _ => (r.1 ++ [Effect.save], .ok ())
  | .error e => (r.1, .error e)

/-- generator.py line 95 (and 322/380/444/538): the padded working sample
count `n_samps = config["n_samps"] + buf`; every modulator output array is
allocated with exactly this length. -/
def n_samps_padded (cfg_n_samps : Nat) : Nat := cfg_n_samps + buf

/-- generator.py lines 487-494: the FSK carrier-spacing lookup.  Any
modulation index other than 0.5, 1.0, 15.0 silently yields `cs = None`. -/
def carrier_spacing_lookup (modidx : ℚ) : Option ℚ :=
  if modidx = 1 / 2 then some 2500
  else if modidx = 1 then some 5000
  else if modidx = 15 then some 15000
  else none

/-- The capture metadata written by `generate_am` (lines 351-363). -/
structure AmMetadata where
  modname : String
  mod_idx : ℚ
  n_samps : Nat
  channel_type : String
  snr : ℚ
  fo : ℚ
  po : ℚ
deriving DecidableEq

/-- generator.py lines 330-363: one capture of `generate_am`.  The
function is total: the channel type is never validated, only copied into
the metadata; `fo` is scaled by `2π` (line 333). -/
def generate_am_capture (channel_type : String) (cfg_n_samps : Nat)
    (mod_idx : ℚ) (cp : ChannelTuple) (modname : String) : AmMetadata :=
  let n_samps := cfg_n_samps + buf
  { modname := modname
    mod_idx := mod_idx
    n_samps := n_samps - buf
    channel_type := channel_type
    snr := cp.snr
    fo := 2 * cp.fo * np_pi
    po := cp.po }

/-- The capture metadata written by `generate_fm` (lines 415-427). -/
structure FmMetadata where
  modname : String
  mod_factor : ℚ
  n_samps : Nat
  channel_type : String
  snr : ℚ
  fo : ℚ
  po : ℚ
deriving DecidableEq

/-- generator.py lines 393-427: one capture of `generate_fm`; total, no
channel-type validation, `fo` scaled by `2π` (line 399). -/
def generate_fm_capture (channel_type : String) (cfg_n_samps : Nat)
    (mod_factor : ℚ) (cp : ChannelTuple) (modname : String) : FmMetadata :=
  let n_samps := cfg_n_samps + buf
  { modname := modname
    mod_factor := mod_factor
    n_samps := n_samps - buf
    channel_type := channel_type
    snr := cp.snr
    fo := 2 * cp.fo * np_pi
    po := cp.po }

/-- The capture metadata written by `generate_fsk` (lines 503-521).  The
recorded `beta` is the string `"none"` for the square pulse shape and the
sampled value otherwise, modelled as `Option ℚ`. -/
structure FskMetadata where
  modname : String
  order : Nat
  mod_idx : ℚ
  carrier_spacing : Option ℚ
  n_samps : Nat
  channel_type : String
  snr : ℚ
  filter_type : String
  beta : Option ℚ
  fo : ℚ
  po : ℚ
deriving DecidableEq

/-- generator.py lines 458-530: one capture of `generate_fsk`; total, no
channel-type validation.  `fo` is scaled by `2π` (line 461), `po` is the
constant `0.0` (line 462), and the carrier spacing comes from the lookup
at lines 487-494 — `None` for an unknown modulation index, with the
capture still produced and saved. -/
def generate_fsk_capture (channel_type : String) (cfg_n_samps order : Nat)
    (modidx : ℚ) (pulseshape : Int) (beta : ℚ) (cp : ChannelTuple)
    (modname : String) : FskMetadata :=
  let n_samps := cfg_n_samps + buf
  { modname := modname
    order := order
    mod_idx := modidx
    carrier_spacing := carrier_spacing_lookup modidx
    n_samps := n_samps - buf
    channel_type := channel_type
    snr := cp.snr
    filter_type := if pulseshape = 0 then "square" else "gaussian"
    beta := if pulseshape = 0 then none else some beta
    fo := 2 * cp.fo * np_pi
    po := 0 }

/-- The capture metadata written by `generate_noise` (lines 557-568). -/
structure NoiseMetadata where
  modname : String
  n_samps : Nat
  channel_type : String
  snr : ℚ
  fo : ℚ
  po : ℚ
deriving DecidableEq

/-- generator.py lines 543-577: one capture of `generate_noise`; total,
no channel-type validation.  `fo` is scaled by `2π` (line 546) and `po`
is the constant `0.0` (line 547). -/
def generate_noise_capture (channel_type : String) (cfg_n_samps : Nat)
    (cp : ChannelTuple) (modname : String) : NoiseMetadata :=
  let n_samps := cfg_n_samps + buf
  { modname := modname
    n_samps := n_samps - buf
    channel_type := channel_type
    snr := cp.snr
    fo := 2 * cp.fo * np_pi
    po := 0 }

/-- A sampled shaping-parameter tuple `(_sps, _beta, _delay, _dt)`
(generator.py lines 101-107 / 446-452). -/
structure SigParams where
  sps : Nat
  beta : ℚ
  delay : ℚ
  dt : ℚ
deriving DecidableEq, Inhabited

/-- The capture metadata written by `generate_linear` (lines 274-292);
`fo`/`po`/`snr` are the values set at extraction time, recorded with no
further scaling. -/
structure LinearMetadata where
  modname : String
  n_samps : Nat
  channel_type : String
  snr : ℚ
  sps : Nat
  fo : ℚ
  po : ℚ
  beta : ℚ
deriving DecidableEq

/-- generator.py lines 274-292: the metadata record of one
`generate_linear` capture. -/
def linear_metadata (cfg_n_samps : Nat) (channel_type modname : String)
    (p : LinExtract) (sp : SigParams) : LinearMetadata :=
  let n_samps := cfg_n_samps + buf
  { modname := modname
    n_samps := n_samps - buf
    channel_type := channel_type
    snr := p.snr
    sps := sp.sps
    fo := p.fo
    po := p.po
    beta := sp.beta }

/-- generator.py lines 123-124: the composite accumulators
`I_total`/`Q_total`, allocated at the trimmed length `n_samps - buf`. -/
def init_composite (cfg_n_samps : Nat) : List ℚ × List ℚ :=
  (List.replicate cfg_n_samps 0, List.replicate cfg_n_samps 0)

/-- generator.py line 99: the mixing time vector
`t = np.arange(n_samps - buf) / sampling_rate`. -/
def time_vector (cfg_n_samps : Nat) (sampling_rate : ℚ) : List ℚ :=
  (List.range cfg_n_samps).map (fun i : Nat => (i : ℚ) / sampling_rate)

/-- generator.py lines 254-265: one center-frequency iteration of the
wideband composer — trim the channel output, mix with
`exp(j·2π·f_center·t)` and accumulate.  The transcendental cosine/sine are
abstracted as the function parameters `cosf`/`sinf` applied to the exact
phase `2π·f_center·t_i`; all array combinations are elementwise as in
numpy. -/
def composite_step (cosf sinf : ℚ → ℚ) (sampling_rate : ℚ)
    (cfg_n_samps : Nat) (center_freq : ℚ) (yI yQ : List ℚ)
    (acc : List ℚ × List ℚ) : List ℚ × List ℚ :=
  let I := trim_halfbuf yI
  let Q := trim_halfbuf yQ
  let t := time_vector cfg_n_samps sampling_rate
  let fs_re := t.map (fun ti => cosf (2 * np_pi * center_freq * ti))
  let fs_im := t.map (fun ti => sinf (2 * np_pi * center_freq * ti))
  let I_shifted :=
    List.zipWith (fun a b => a - b)
      (List.zipWith (fun a b => a * b) I fs_re)
      (List.zipWith (fun a b => a * b) Q fs_im)
  let Q_shifted :=
    List.zipWith (fun a b => a + b)
      (List.zipWith (fun a b => a * b) I fs_im)
      (List.zipWith (fun a b => a * b) Q fs_re)
  (List.zipWith (fun a b => a + b) acc.1 I_shifted,
   List.zipWith (fun a b => a + b) acc.2 Q_shifted)

/-- generator.py lines 126-265: the full center-frequency loop of one
capture, folding `composite_step` over the per-center-frequency channel
outputs `(center_freq, yI, yQ)`. -/
def composite_loop (cosf sinf : ℚ → ℚ) (sampling_rate : ℚ)
    (cfg_n_samps : Nat) (subs : List (ℚ × List ℚ × List ℚ)) :
    List ℚ × List ℚ :=
  subs.foldl
    (fun acc sub =>
      composite_step cosf sinf sampling_rate cfg_n_samps sub.1 sub.2.1
        sub.2.2 acc)
    (init_composite cfg_n_samps)

/-- Modelled from the spec: the numpy process-wide Mersenne Twister
generator (seeded at generator.py line 631) is not part of the embedded
source; §4.1 requires only that it is a deterministic state-transition
function, modelled here by a 64-bit linear congruential step. -/
def rng_next (s : Nat) : Nat :=
  (6364136223846793005 * s + 1442695040888963407) % 18446744073709551616

/-- Modelled from the spec: `np.random.choice(n, k)` (generator.py lines
453-455) draws `k` indices uniformly with replacement from the seeded
process-wide generator; modelled as `k` successive deterministic draws
reduced mod `n`, returning the drawn indices and the advanced state. -/
def np_random_choice (n k : Nat) (s : Nat) : List Nat × Nat :=
  match k with
  | 0 => ([], s)
  | k + 1 =>
    let s1 := rng_next s
    let i := if n = 0 then 0 else s1 % n
    let r := np_random_choice n k s1
    (i :: r.1, r.2)

/-- generator.py lines 446-452: the cartesian product of the configured
shaping-parameter axes. -/
def sig_param_grid (srs : List Nat) (betas delays dts : List ℚ) :
    List SigParams :=
  srs.flatMap fun s =>
    betas.flatMap fun b =>
      delays.flatMap fun de =>
        dts.map fun dt => ⟨s, b, de, dt⟩

/-- Modelled from the spec: the family dispatch `mod_int2modem[_mod[0]]`
(generator.py lines 586-599) resolves each configured modulation entry to
its family via a lookup living in `utils` (not under the embedded
source); per §2/§3 every entry belongs to exactly one of the five
families, modelled by this tag together with the per-family fields of the
entry `mod` (class id, order/variant, FSK modulation index and pulse
shape, name). -/
inductive ModEntry where
  | linear (modclass : Int) (ord : Nat) (modname : String)
  | amplitude (modclass : Int) (variant : Int) (modname : String)
  | frequency (modclass : Int) (variant : Int) (modname : String)
  | freq_shift (modclass : Int) (ord : Nat) (mod_idx : ℚ) (pulseshape : Int)
      (modname : String)
  | noise (modclass : Int) (modname : String)

/-- The resolved configuration read by the batch generators (the fields
of `config` consumed at generator.py lines 92-599 after `map_config`). -/
structure Config where
  n_samps : Nat
  n_captures : Nat
  sampling_rate : ℚ
  symbol_rate : List Nat
  rrc_beta : List ℚ
  rrc_delay : List ℚ
  rrc_dt : List ℚ
  g_beta : List ℚ
  g_delay : List ℚ
  g_dt : List ℚ
  am_modulation_index : List ℚ
  fmnb_modulation_factor : List ℚ
  fmwb_modulation_factor : List ℚ
  channel_params : List ChannelTuple
  channel_type : String
  center_frequencies : List ℚ
  modulation : List ModEntry

/-- The C modules loaded at generator.py lines 28-33, plus the
transcendental cosine/sine used by the composer (line 258).  They are not
under the embedded source; each enters as a fixed function of exactly the
arguments the Python code passes it — in particular the seed, re-set to
the fixed `rng_seed` for every capture (lines 121/331/394/459/544).  The
argument order per field is the order of the corresponding C call. -/
structure CModules where
  linear_modulate_c : Nat → Int → Nat → Nat → List ℚ × List ℚ
  rrc_tx_c : Nat → Nat → ℚ → ℚ → ℚ → List ℚ → List ℚ → List ℚ × List ℚ
  channel_c : Nat → ℚ → Nat → Nat → ℚ → ℚ → List ℚ → List ℚ → List ℚ × List ℚ
  rayleigh_channel_c : Nat → ℚ → Nat → Nat → ℚ → ℚ → Nat → Int →
      List ℚ → List ℚ → List ℚ → List ℚ → List ℚ × List ℚ
  rician_channel_c : Nat → ℚ → Nat → Nat → ℚ → ℚ → ℚ → Nat → Int →
      List ℚ → List ℚ → List ℚ → List ℚ → List ℚ × List ℚ
  am_mod_c : Nat → Int → ℚ → Nat → List ℚ × List ℚ
  fm_mod_c : Nat → ℚ → Nat → List ℚ × List ℚ
  fsk_mod_c : Nat → Nat → Nat → ℚ → Int → SigParams → List ℚ × List ℚ
  cosf : ℚ → ℚ
  sinf : ℚ → ℚ

/-- One written capture: the global index passed to `save_sigmf`
(lines 301/372/436/530/577), the family metadata and the trimmed IQ
payload. -/
inductive Capture where
  | linear (idx : Nat) (m : LinearMetadata) (I Q : List ℚ)
  | am (idx : Nat) (m : AmMetadata) (I Q : List ℚ)
  | fm (idx : Nat) (m : FmMetadata) (I Q : List ℚ)
  | fsk (idx : Nat) (m : FskMetadata) (I Q : List ℚ)
  | noise (idx : Nat) (m : NoiseMetadata) (I Q : List ℚ)

/-- generator.py lines 126-265: the center-frequency loop of one
`generate_linear` capture with its full C-call chain — channel-parameter
extraction (raising aborts), `linear_modulate`, `rrc_tx`, the channel
variant selected by the extracted parameters, then trim / mix /
accumulate via `composite_step`. -/
def linear_cf_loop (M : CModules) (channel_type : String)
    (cp : ChannelTuple) (sp : SigParams) (cfg_n : Nat) (sr : ℚ)
    (modclass : Int) (ord : Nat) (rng_seed : Nat) :
    List ℚ → List ℚ × List ℚ → Except String (List ℚ × List ℚ)
  | [], acc => .ok acc
  | cf :: rest, acc =>
    match extract_channel_params channel_type cp with
    | .error e => .error e
    | .ok p =>
      let n_samps := cfg_n + buf
      let n_sym := (n_samps + sp.sps - 1) / sp.sps
      let sm := M.linear_modulate_c rng_seed modclass ord n_sym
      let x := M.rrc_tx_c n_sym sp.sps sp.delay sp.beta sp.dt sm.1 sm.2
      let y :=
        match p with
        | .awgnP s f po => M.channel_c rng_seed s n_sym sp.sps f po x.1 x.2
        | .rayleighP s f po nt aw d g =>
          M.rayleigh_channel_c rng_seed s n_sym sp.sps f po nt aw x.1 x.2 d g
        | .ricianP s f po k nt aw d g =>
          M.rician_channel_c rng_seed s n_sym sp.sps f po k nt aw x.1 x.2 d g
      linear_cf_loop M channel_type cp sp cfg_n sr modclass ord rng_seed rest
        (composite_step M.cosf M.sinf sr cfg_n cf y.1 y.2 acc)

/-- generator.py lines 118-301: one `generate_linear` capture — run the
center-frequency loop and build the metadata from the channel parameters
the loop left bound (lines 274-292).  For an empty center-frequency list
the source dies with a NameError at the metadata build; the model then
re-runs the extraction instead, an idealisation confined to that
degenerate configuration. -/
def linear_one_capture (M : CModules) (channel_type modname : String)
    (modclass : Int) (ord : Nat) (cfg_n : Nat) (sr : ℚ) (cfs : List ℚ)
    (cp : ChannelTuple) (sp : SigParams) (rng_seed : Nat) :
    Except String (LinearMetadata × List ℚ × List ℚ) :=
  match linear_cf_loop M channel_type cp sp cfg_n sr modclass ord rng_seed
      cfs (init_composite cfg_n) with
  | .error e => .error e
  | .ok acc =>
    match extract_channel_params channel_type cp with
    | .error e => .error e
    | .ok p => .ok (linear_metadata cfg_n channel_type modname p sp, acc.1, acc.2)

/-- generator.py lines 92-316: one whole `generate_linear` batch — build
the shaping grid, draw the two aligned index sequences from the evolving
generator state `st`, then produce the captures in order, any raise
aborting the batch.  Returns the captures, the next capture index
(line 316) and the advanced generator state. -/
def generate_linear_run (M : CModules) (cfg : Config) (modclass : Int)
    (ord : Nat) (modname : String) (idx_start rng_seed st : Nat) :
    Except String (List Capture) × Nat × Nat :=
  let grid := sig_param_grid cfg.symbol_rate cfg.rrc_beta cfg.rrc_delay cfg.rrc_dt
  let draw1 := np_random_choice grid.length cfg.n_captures st
  let sig := draw1.1.map fun j => grid.getD j default
  let draw2 := np_random_choice cfg.channel_params.length cfg.n_captures draw1.2
  let chans := draw2.1.map fun j => cfg.channel_params.getD j (ChannelTuple.awgn 0 0 0)
  let caps := (List.range cfg.n_captures).mapM fun i =>
    match linear_one_capture M cfg.channel_type modname modclass ord
        cfg.n_samps cfg.sampling_rate cfg.center_frequencies
        (chans.getD i (ChannelTuple.awgn 0 0 0)) (sig.getD i default)
        rng_seed with
    | .error e => Except.error e
    | .ok r => Except.ok (Capture.linear (idx_start + i) r.1 r.2.1 r.2.2)
  (caps, idx_start + cfg.n_captures, draw2.2)

/-- generator.py lines 319-374: one whole `generate_am` batch.  The
modulation-index pool and the channel pool are sampled from the evolving
generator state; each capture runs `am_modulate` then the AWGN channel
with `sps = 1` and the 2π-scaled frequency offset, and is saved
unconditionally. -/
def generate_am_run (M : CModules) (cfg : Config) (variant : Int)
    (modname : String) (idx_start rng_seed st : Nat) :
    List Capture × Nat × Nat :=
  let draw1 := np_random_choice cfg.am_modulation_index.length cfg.n_captures st
  let sig := draw1.1.map fun j => cfg.am_modulation_index.getD j 0
  let draw2 := np_random_choice cfg.channel_params.length cfg.n_captures draw1.2
  let chans := draw2.1.map fun j => cfg.channel_params.getD j (ChannelTuple.awgn 0 0 0)
  let caps := (List.range cfg.n_captures).map fun i =>
    let cp := chans.getD i (ChannelTuple.awgn 0 0 0)
    let mi := sig.getD i 0
    let n_samps := cfg.n_samps + buf
    let x := M.am_mod_c rng_seed variant mi n_samps
    let y := M.channel_c rng_seed cp.snr n_samps 1 (2 * cp.fo * np_pi) cp.po
      x.1 x.2
    Capture.am (idx_start + i)
      (generate_am_capture cfg.channel_type cfg.n_samps mi cp modname)
      (trim_halfbuf y.1) (trim_halfbuf y.2)
  (caps, idx_start + cfg.n_captures, draw2.2)

/-- generator.py lines 377-438: one whole `generate_fm` batch; the
modulation-factor pool is the narrowband list for variant 0 and the
wideband list otherwise (lines 382-387). -/
def generate_fm_run (M : CModules) (cfg : Config) (variant : Int)
    (modname : String) (idx_start rng_seed st : Nat) :
    List Capture × Nat × Nat :=
  let pool := if variant = 0 then cfg.fmnb_modulation_factor
    else cfg.fmwb_modulation_factor
  let draw1 := np_random_choice pool.length cfg.n_captures st
  let sig := draw1.1.map fun j => pool.getD j 0
  let draw2 := np_random_choice cfg.channel_params.length cfg.n_captures draw1.2
  let chans := draw2.1.map fun j => cfg.channel_params.getD j (ChannelTuple.awgn 0 0 0)
  let caps := (List.range cfg.n_captures).map fun i =>
    let cp := chans.getD i (ChannelTuple.awgn 0 0 0)
    let mf := sig.getD i 0
    let n_samps := cfg.n_samps + buf
    let x := M.fm_mod_c rng_seed mf n_samps
    let y := M.channel_c rng_seed cp.snr n_samps 1 (2 * cp.fo * np_pi) cp.po
      x.1 x.2
    Capture.fm (idx_start + i)
      (generate_fm_capture cfg.channel_type cfg.n_samps mf cp modname)
      (trim_halfbuf y.1) (trim_halfbuf y.2)
  (caps, idx_start + cfg.n_captures, draw2.2)

/-- generator.py lines 441-532: one whole `generate_fsk` batch — the
Gaussian-filter shaping grid and the channel pool are sampled from the
evolving generator state; each capture runs `fsk_modulate` with
`bps = log2(order)` and `n_sym = ceil(n_samps / sps)`, then the AWGN
channel with phase offset hard-coded to 0. -/
def generate_fsk_run (M : CModules) (cfg : Config) (ord : Nat)
    (mod_idx : ℚ) (pulseshape : Int) (modname : String)
    (idx_start rng_seed st : Nat) : List Capture × Nat × Nat :=
  let grid := sig_param_grid cfg.symbol_rate cfg.g_beta cfg.g_delay cfg.g_dt
  let draw1 := np_random_choice grid.length cfg.n_captures st
  let sig := draw1.1.map fun j => grid.getD j default
  let draw2 := np_random_choice cfg.channel_params.length cfg.n_captures draw1.2
  let chans := draw2.1.map fun j => cfg.channel_params.getD j (ChannelTuple.awgn 0 0 0)
  let caps := (List.range cfg.n_captures).map fun i =>
    let cp := chans.getD i (ChannelTuple.awgn 0 0 0)
    let sp := sig.getD i default
    let n_samps := cfg.n_samps + buf
    let n_sym := (n_samps + sp.sps - 1) / sp.sps
    let bps := Nat.log2 ord
    let x := M.fsk_mod_c rng_seed n_sym bps mod_idx pulseshape sp
    let y := M.channel_c rng_seed cp.snr n_sym sp.sps (2 * cp.fo * np_pi) 0
      x.1 x.2
    Capture.fsk (idx_start + i)
      (generate_fsk_capture cfg.channel_type cfg.n_samps ord mod_idx
        pulseshape sp.beta cp modname)
      (trim_halfbuf y.1) (trim_halfbuf y.2)
  (caps, idx_start + cfg.n_captures, draw2.2)

/-- generator.py lines 535-579: one whole `generate_noise` batch — a
single channel-pool draw, then the AWGN channel applied to all-zero
arrays with `sps = 1` and phase offset 0. -/
def generate_noise_run (M : CModules) (cfg : Config) (modname : String)
    (idx_start rng_seed st : Nat) : List Capture × Nat × Nat :=
  let draw := np_random_choice cfg.channel_params.length cfg.n_captures st
  let chans := draw.1.map fun j => cfg.channel_params.getD j (ChannelTuple.awgn 0 0 0)
  let caps := (List.range cfg.n_captures).map fun i =>
    let cp := chans.getD i (ChannelTuple.awgn 0 0 0)
    let n_samps := cfg.n_samps + buf
    let z : List ℚ := List.replicate n_samps 0
    let y := M.channel_c rng_seed cp.snr n_samps 1 (2 * cp.fo * np_pi) 0 z z
    Capture.noise (idx_start + i)
      (generate_noise_capture cfg.channel_type cfg.n_samps cp modname)
      (trim_halfbuf y.1) (trim_halfbuf y.2)
  (caps, idx_start + cfg.n_captures, draw.2)

/-- generator.py lines 582-604, `run_tx`: dispatch every configured
modulation entry to its family batch in order, threading the single
global capture index and the process-wide generator state; a raise in any
batch aborts the whole run. -/
def run_tx_loop (M : CModules) (cfg : Config) (rng_seed : Nat) :
    List ModEntry → Nat → Nat → Except String (List Capture)
  | [], _, _ => .ok []
  | entry :: rest, idx, st =>
    let step : Except String (List Capture) × Nat × Nat :=
      match entry with
      | .linear mc ord nm => generate_linear_run M cfg mc ord nm idx rng_seed st
      | .amplitude _mc v nm =>
        let r := generate_am_run M cfg v nm idx rng_seed st
        (.ok r.1, r.2)
      | .frequency _mc v nm =>
        let r := generate_fm_run M cfg v nm idx rng_seed st
        (.ok r.1, r.2)
      | .freq_shift _mc ord mi ps nm =>
        let r := generate_fsk_run M cfg ord mi ps nm idx rng_seed st
        (.ok r.1, r.2)
      | .noise _mc nm =>
        let r := generate_noise_run M cfg nm idx rng_seed st
        (.ok r.1, r.2)
    match step.1 with
    | .error e => .error e
    | .ok caps =>
      match run_tx_loop M cfg rng_seed rest step.2.1 step.2.2 with
      | .error e => .error e
      | .ok more => .ok (caps ++ more)

/-- Modelled from the spec: `np.random.seed(rng_seed)` (generator.py line
631) initialises the process-wide generator state deterministically from
the seed (§4.1); the numpy implementation is not under the embedded
source. -/
def np_seed_state (seed : Nat) : Nat := rng_next seed

/-- generator.py lines 607-637, `__main__`: the seed is the command-line
argument when given, otherwise the `Random_Seed` system parameter (lines
626-630). -/
def resolve_seed (cli_seed : Option Nat) (system_seed : Nat) : Nat :=
  cli_seed.getD system_seed

/-- generator.py lines 607-637 and 582-604: the whole pipeline — resolve
the seed, seed the process-wide generator, and run every configured
modulation batch from capture index 0. -/
def run_pipeline (M : CModules) (cfg : Config) (cli_seed : Option Nat)
    (system_seed : Nat) : Except String (List Capture) :=
  let rng_seed := resolve_seed cli_seed system_seed
  run_tx_loop M cfg rng_seed cfg.modulation 0 (np_seed_state rng_seed)

/-- A trivial instantiation of the C modules, used to exercise the
pipeline at a concrete configuration. -/
def demo_cmodules : CModules where
  linear_modulate_c := fun _ _ _ n => (List.replicate n 0, List.replicate n 0)
  rrc_tx_c := fun _ _ _ _ _ smI smQ => (smI, smQ)
  channel_c := fun _ _ _ _ _ _ xI xQ => (xI, xQ)
  rayleigh_channel_c := fun _ _ _ _ _ _ _ _ xI xQ _ _ => (xI, xQ)
  rician_channel_c := fun _ _ _ _ _ _ _ _ _ xI xQ _ _ => (xI, xQ)
  am_mod_c := fun _ _ _ n => (List.replicate n 0, List.replicate n 0)
  fm_mod_c := fun _ _ n => (List.replicate n 0, List.replicate n 0)
  fsk_mod_c := fun _ _ _ _ _ _ => ([], [])
  cosf := fun _ => 1
  sinf := fun _ => 0

/-- A two-capture configuration exercising all five modulation families. -/
def demo_config : Config where
  n_samps := 64
  n_captures := 2
  sampling_rate := 1000
  symbol_rate := [4]
  rrc_beta := [1 / 2]
  rrc_delay := [2]
  rrc_dt := [1 / 100]
  g_beta := [1 / 2]
  g_delay := [2]
  g_dt := [1 / 100]
  am_modulation_index := [1 / 2]
  fmnb_modulation_factor := [1 / 10]
  fmwb_modulation_factor := [1 / 2]
  channel_params := [ChannelTuple.awgn 10 100 0]
  channel_type := "awgn"
  center_frequencies := [0]
  modulation :=
    [ModEntry.linear 0 2 "bpsk", ModEntry.amplitude 1 0 "am-dsb",
     ModEntry.frequency 2 0 "fmnb", ModEntry.freq_shift 3 2 (1 / 2) 0 "2gfsk",
     ModEntry.noise 4 "awgn"]

theorem pySliceTrim_length (t : Nat) (ht : t ≠ 0) (xs : List α) :
    (pySliceTrim t xs).length = xs.length - 2 * t := by
  simp [pySliceTrim, ht]
  omega

theorem decimateAux_map (f : α → β) (sps : Nat) (xs : List α) :
    ∀ k, decimateAux sps (xs.map f) k = (decimateAux sps xs k).map f := by
  induction xs with
  | nil => intro k; simp [decimateAux]
  | cons a rest ih =>
    intro k
    cases k with
    | zero => simp [decimateAux, ih]
    | succ k => simp [decimateAux, ih]

theorem decimate_map (f : α → β) (sps : Nat) (xs : List α) :
    decimate sps (xs.map f) = (decimate sps xs).map f :=
  decimateAux_map f sps xs 0

theorem decimate_ne_nil (sps : Nat) (xs : List α) (h : xs ≠ []) :
    decimate sps xs ≠ [] := by
  cases xs with
  | nil => exact absurd rfl h
  | cons a rest => simp [decimate, decimateAux]

/-- Claim C7: `calculate_ber_BPSK`, given transmitted `(xI,xQ)` and
received `(yI,yQ)` streams with `trim > 0` and `sps ≥ 1`, removes `trim`
samples from each end of both streams, keeps every `sps`-th remaining
complex sample, decides bit 1 for a kept sample iff its real part is
`≥ 0`, and returns exactly the fraction of symbol positions at which the
transmitted and received bit decisions differ. -/
theorem calculate_ber_BPSK_correct (xI xQ yI yQ : List ℚ) (sps trim : Nat)
    (htrim : 0 < trim) (hsps : 1 ≤ sps)
    (hx : xI.length = xQ.length) (hy : yI.length = yQ.length)
    (hxy : xI.length = yI.length) (hlen : 2 * trim < xI.length) :
    calculate_ber_BPSK xI xQ yI yQ sps trim =
      some (ber_fraction xI yI sps trim) := by
  have ht : trim ≠ 0 := by omega
  have lx : (pySliceTrim trim xI).length = (pySliceTrim trim xQ).length := by
    rw [pySliceTrim_length trim ht, pySliceTrim_length trim ht, hx]
  have ly : (pySliceTrim trim yI).length = (pySliceTrim trim yQ).length := by
    rw [pySliceTrim_length trim ht, pySliceTrim_length trim ht, hy]
  have ex : ((pySliceTrim trim xI).zip (pySliceTrim trim xQ)).map Prod.fst
      = pySliceTrim trim xI := List.map_fst_zip _ _ (le_of_eq lx)
  have ey : ((pySliceTrim trim yI).zip (pySliceTrim trim yQ)).map Prod.fst
      = pySliceTrim trim yI := List.map_fst_zip _ _ (le_of_eq ly)
  have hfun : (fun (p : ℚ × ℚ) => decide (0 ≤ p.1))
      = (fun r : ℚ => decide (0 ≤ r)) ∘ Prod.fst := rfl
  have bx : (decimate sps ((pySliceTrim trim xI).zip (pySliceTrim trim xQ))).map
      (fun p => decide (0 ≤ p.1)) = bpsk_bits xI sps trim := by
    rw [hfun, ← List.map_map, ← decimate_map, ex]
    rfl
  have by2 : (decimate sps ((pySliceTrim trim yI).zip (pySliceTrim trim yQ))).map
      (fun p => decide (0 ≤ p.1)) = bpsk_bits yI sps trim := by
    rw [hfun, ← List.map_map, ← decimate_map, ey]
    rfl
  have hne : pySliceTrim trim xI ≠ [] := by
    intro hnil
    have hl := pySliceTrim_length trim ht xI
    rw [hnil] at hl
    simp at hl
    omega
  have htot : (bpsk_bits xI sps trim).length ≠ 0 := by
    intro h0
    exact decimate_ne_nil sps (pySliceTrim trim xI) hne
      (List.length_eq_zero.mp (by simpa [bpsk_bits] using h0))
  simp only [calculate_ber_BPSK, ber_fraction]
  rw [bx, by2, if_neg htot]

/-- Witness for C7 at a concrete input: three samples, `trim = 1`,
`sps = 1`; the surviving transmitted bit is 0 and the received bit is 1. -/
theorem calculate_ber_BPSK_correct_witness :
    calculate_ber_BPSK [1, -1, 2] [0, 0, 0] [1, 1, 1] [0, 0, 0] 1 1 =
      some (ber_fraction [1, -1, 2] [1, 1, 1] 1 1) :=
  calculate_ber_BPSK_correct [1, -1, 2] [0, 0, 0] [1, 1, 1] [0, 0, 0] 1 1
    (by decide) (by decide) (by decide) (by decide) (by decide) (by decide)

/-- Counterexample to claim C8 as stated: with zero total bits the BER
computation does not degrade to a defined neutral value and the report is
not skipped — the division `0/0` is undefined (NaN, modelled `none`) and
the undefined value is still appended to the per-SNR accumulator. -/
theorem ber_zero_bits_counterexample :
    calculate_ber_BPSK [0] [0] [0] [0] 1 1 = none ∧
    updateBerDict [] 10 (calculate_ber_BPSK [0] [0] [0] [0] 1 1) =
      [(10, [none])] := by decide

/-- Claim C8 (amended): when a BER calculation has zero total bits (no
symbol decisions survive trimming), the division `0/0` in `calculate_ber_BPSK`
is an undefined result (numpy NaN, modelled `none`), and the caller still
records that undefined value in the per-SNR BER accumulator — the report
is neither skipped nor replaced by a neutral value. -/
theorem ber_zero_bits_amended (xI xQ yI yQ : List ℚ) (sps trim : Nat)
    (snr : ℚ) (h : xI.length ≤ 2 * trim) :
    calculate_ber_BPSK xI xQ yI yQ sps trim = none ∧
    updateBerDict [] snr (calculate_ber_BPSK xI xQ yI yQ sps trim) =
      [(snr, [none])] := by
  have hnil : pySliceTrim trim xI = [] := by
    unfold pySliceTrim
    split
    · rfl
    · have h2 : xI.length - 2 * trim = 0 := by omega
      rw [h2]
      simp
  have hmain : calculate_ber_BPSK xI xQ yI yQ sps trim = none := by
    simp only [calculate_ber_BPSK, hnil]
    simp [decimate, decimateAux]
  refine ⟨hmain, ?_⟩
  rw [hmain]
  simp [updateBerDict]

/-- Witness for the amended C8 at a concrete input with zero surviving
bits. -/
theorem ber_zero_bits_amended_witness :
    calculate_ber_BPSK [1] [1] [1] [1] 2 3 = none ∧
    updateBerDict [] 5 (calculate_ber_BPSK [1] [1] [1] [1] 2 3) =
      [(5, [none])] :=
  ber_zero_bits_amended [1] [1] [1] [1] 2 3 5 (by decide)

/-- Counterexample to claim C1 as stated: at modulation index 2.0 the FSK
generator raises no configuration error — the capture metadata is still
produced, with carrier spacing recorded as `None`. -/
theorem carrier_spacing_counterexample :
    (generate_fsk_capture "awgn" 1024 2 2 0 (1 / 4)
      (ChannelTuple.awgn 10 100 (1 / 2)) "fsk2").carrier_spacing = none := by
  norm_num [generate_fsk_capture, carrier_spacing_lookup]

/-- Claim C1 (amended): for modulation index 0.5 / 1.0 / 15.0 the FSK
capture metadata records carrier spacing 2500 / 5000 / 15000 Hz; for every
other modulation index `generate_fsk` silently records `None` (undefined)
and still produces the capture — no configuration error is raised. -/
theorem carrier_spacing_amended (ct nm : String) (cfg_n ord : Nat)
    (ps : Int) (b m : ℚ) (cp : ChannelTuple)
    (h1 : m ≠ 1 / 2) (h2 : m ≠ 1) (h3 : m ≠ 15) :
    (generate_fsk_capture ct cfg_n ord (1 / 2) ps b cp nm).carrier_spacing
        = some 2500 ∧
    (generate_fsk_capture ct cfg_n ord 1 ps b cp nm).carrier_spacing
        = some 5000 ∧
    (generate_fsk_capture ct cfg_n ord 15 ps b cp nm).carrier_spacing
        = some 15000 ∧
    (generate_fsk_capture ct cfg_n ord m ps b cp nm).carrier_spacing
        = none := by
  refine ⟨?_, ?_, ?_, ?_⟩ <;>
    norm_num [generate_fsk_capture, carrier_spacing_lookup, h1, h2, h3]

/-- Witness for the amended C1 at modulation index 7. -/
theorem carrier_spacing_amended_witness :
    (generate_fsk_capture "awgn" 1024 2 (1 / 2) 0 (1 / 4)
        (ChannelTuple.awgn 10 100 0) "fsk2").carrier_spacing = some 2500 ∧
    (generate_fsk_capture "awgn" 1024 2 1 0 (1 / 4)
        (ChannelTuple.awgn 10 100 0) "fsk2").carrier_spacing = some 5000 ∧
    (generate_fsk_capture "awgn" 1024 2 15 0 (1 / 4)
        (ChannelTuple.awgn 10 100 0) "fsk2").carrier_spacing = some 15000 ∧
    (generate_fsk_capture "awgn" 1024 2 7 0 (1 / 4)
        (ChannelTuple.awgn 10 100 0) "fsk2").carrier_spacing = none :=
  carrier_spacing_amended "awgn" "fsk2" 1024 2 0 (1 / 4) 7
    (ChannelTuple.awgn 10 100 0) (by norm_num) (by norm_num) (by norm_num)

/-- Counterexample to claim C2 as stated: with `buf = 4096` the modulator
buffer for a 1024-sample capture has `1024 + buf = 5120` samples, not
`1024 + 2·buf = 9216`. -/
theorem guard_buffer_counterexample :
    ¬ n_samps_padded 1024 = 1024 + 2 * buf := by decide

/-- Claim C2 (amended): the modulator stage produces a buffer of exactly
`n_samples + buf` samples, where `buf = 4096` is the fixed guard length
(equivalently `n_samples + 2·halfbuf`), and every downstream stage trims
`halfbuf = buf/2 = 2048` samples from each end of that buffer,
recovering exactly `n_samples`. -/
theorem guard_buffer_amended (cfg_n : Nat) (xs : List ℚ)
    (h : xs.length = n_samps_padded cfg_n) :
    n_samps_padded cfg_n = cfg_n + buf ∧ buf = 2 * halfbuf ∧
    halfbuf = buf / 2 ∧ (trim_halfbuf xs).length = cfg_n := by
  refine ⟨rfl, by decide, by decide, ?_⟩
  rw [trim_halfbuf, pySliceTrim_length halfbuf (by decide), h]
  simp only [n_samps_padded, buf, halfbuf]
  omega

/-- Witness for the amended C2 with `n_samples = 3`. -/
theorem guard_buffer_amended_witness :
    n_samps_padded 3 = 3 + buf ∧ buf = 2 * halfbuf ∧ halfbuf = buf / 2 ∧
    (trim_halfbuf (List.replicate 4099 0)).length = 3 :=
  guard_buffer_amended 3 (List.replicate 4099 0)
    (by rw [List.length_replicate]; rfl)

theorem composite_step_length (cosf sinf : ℚ → ℚ) (sr cf : ℚ) (n : Nat)
    (yI yQ : List ℚ) (acc : List ℚ × List ℚ)
    (hI : yI.length = n + buf) (hQ : yQ.length = n + buf)
    (h1 : acc.1.length = n) (h2 : acc.2.length = n) :
    (composite_step cosf sinf sr n cf yI yQ acc).1.length = n ∧
    (composite_step cosf sinf sr n cf yI yQ acc).2.length = n := by
  have tI : (trim_halfbuf yI).length = n := by
    rw [trim_halfbuf, pySliceTrim_length halfbuf (by decide), hI]
    simp only [buf, halfbuf]
    omega
  have tQ : (trim_halfbuf yQ).length = n := by
    rw [trim_halfbuf, pySliceTrim_length halfbuf (by decide), hQ]
    simp only [buf, halfbuf]
    omega
  have tv : (time_vector n sr).length = n := by
    rw [time_vector, List.length_map, List.length_range]
  constructor <;>
  · simp only [composite_step, List.length_zipWith, List.length_map, tI, tQ,
      h1, h2, tv]
    omega

theorem composite_fold_length (cosf sinf : ℚ → ℚ) (sr : ℚ) (n : Nat) :
    ∀ (subs : List (ℚ × List ℚ × List ℚ)) (acc : List ℚ × List ℚ),
      (∀ sub ∈ subs, sub.2.1.length = n + buf ∧ sub.2.2.length = n + buf) →
      acc.1.length = n → acc.2.length = n →
      (subs.foldl
          (fun acc sub =>
            composite_step cosf sinf sr n sub.1 sub.2.1 sub.2.2 acc)
          acc).1.length = n ∧
      (subs.foldl
          (fun acc sub =>
            composite_step cosf sinf sr n sub.1 sub.2.1 sub.2.2 acc)
          acc).2.length = n := by
  intro subs
  induction subs with
  | nil => intro acc _ h1 h2; exact ⟨h1, h2⟩
  | cons s rest ih =>
    intro acc h h1 h2
    simp only [List.foldl_cons]
    have hs := h s (List.mem_cons_self _ _)
    have step := composite_step_length cosf sinf sr s.1 n s.2.1 s.2.2 acc
      hs.1 hs.2 h1 h2
    exact ih _ (fun x hx => h x (List.mem_cons_of_mem _ hx)) step.1 step.2

/-- Claim C3: for every capture of the linear generator, the final
composite `(I_total, Q_total)` buffer has length exactly the configured
post-trim sample count `n_samples`, independent of how many center
frequencies are accumulated, and the metadata field `n_samps` equals that
length. -/
theorem composite_length_correct (cosf sinf : ℚ → ℚ) (sr : ℚ)
    (cfg_n : Nat) (subs : List (ℚ × List ℚ × List ℚ))
    (ct nm : String) (p : LinExtract) (sp : SigParams)
    (h : ∀ sub ∈ subs, sub.2.1.length = n_samps_padded cfg_n ∧
        sub.2.2.length = n_samps_padded cfg_n) :
    (composite_loop cosf sinf sr cfg_n subs).1.length = cfg_n ∧
    (composite_loop cosf sinf sr cfg_n subs).2.length = cfg_n ∧
    (linear_metadata cfg_n ct nm p sp).n_samps = cfg_n := by
  have base := composite_fold_length cosf sinf sr cfg_n subs
    (init_composite cfg_n) (by simpa [n_samps_padded] using h)
    (by simp [init_composite]) (by simp [init_composite])
  simp only [composite_loop]
  exact ⟨base.1, base.2, by simp [linear_metadata]⟩

/-- Witness for C3: one center frequency, padded sub-signal of length
`2 + buf = 4098`, composite length 2. -/
theorem composite_length_correct_witness :
    (composite_loop (fun x => x) (fun _ => 0) 1000 2
        [(0, List.replicate 4098 0, List.replicate 4098 0)]).1.length = 2 ∧
    (composite_loop (fun x => x) (fun _ => 0) 1000 2
        [(0, List.replicate 4098 0, List.replicate 4098 0)]).2.length = 2 ∧
    (linear_metadata 2 "awgn" "bpsk" (LinExtract.awgnP 1 2 3)
        ⟨4, 1, 2, 3⟩).n_samps = 2 :=
  composite_length_correct (fun x => x) (fun _ => 0) 1000 2
    [(0, List.replicate 4098 0, List.replicate 4098 0)] "awgn" "bpsk"
    (LinExtract.awgnP 1 2 3) ⟨4, 1, 2, 3⟩
    (by
      intro sub hs
      rw [List.mem_singleton] at hs
      subst hs
      refine ⟨?_, ?_⟩ <;>
      · show (List.replicate 4098 (0 : ℚ)).length = n_samps_padded 2
        rw [List.length_replicate]
        rfl)

/-- Claim C4: for a fixed seed and identical configuration, two runs of
the whole pipeline — the `__main__` seed resolution, the seeding of the
process-wide generator, and the `run_tx` dispatch of every configured
modulation entry over the linear, amplitude, frequency, freq_shift and
noise batch loops — produce identical capture metadata and IQ sample
buffers for every capture.  The C modules are fixed function parameters;
the embedded Python layer threads all randomness through the resolved
seed, so the full capture list is a function of the configuration and the
seed alone. -/
theorem run_determinism (M : CModules) (cfg1 cfg2 : Config)
    (cli1 cli2 : Option Nat) (sys1 sys2 : Nat)
    (hc : cfg1 = cfg2) (hcli : cli1 = cli2) (hsys : sys1 = sys2) :
    run_pipeline M cfg1 cli1 sys1 = run_pipeline M cfg2 cli2 sys2 := by
  rw [hc, hcli, hsys]

/-- Witness for C4: the demo configuration (all five families, two
captures each) run twice with command-line seed 7 over system default 3. -/
theorem run_determinism_witness :
    run_pipeline demo_cmodules demo_config (some 7) 3 =
      run_pipeline demo_cmodules demo_config (some 7) 3 :=
  run_determinism demo_cmodules demo_config demo_config (some 7) (some 7)
    3 3 rfl rfl rfl

/-- Counterexample to claim C5 as stated: for the unknown channel type
"foo" only the linear family fails — `generate_am` still produces a
capture whose metadata records the unknown channel type. -/
theorem channel_type_counterexample :
    linear_capture "foo" (ChannelTuple.awgn 0 0 0) [0] =
      ([], Except.error "Undefined channel type.") ∧
    (generate_am_capture "foo" 1024 (1 / 2) (ChannelTuple.awgn 10 100 0)
        "am-dsb").channel_type = "foo" :=
  ⟨rfl, rfl⟩

/-- Claim C5 (amended): only the linear family validates the channel
type.  For a channel type other than awgn/rayleigh/rician,
`generate_linear` raises `Undefined channel type.` with no C-module call
and no capture written, while the amplitude, frequency, freq_shift and
noise families never inspect the channel type — each still produces its
capture, recording the unknown string in the metadata. -/
theorem channel_type_validation (ct nm : String) (cp : ChannelTuple)
    (cfs : List ℚ) (cfg_n ord : Nat) (ps : Int) (mi mf b : ℚ)
    (h1 : ct ≠ "awgn") (h2 : ct ≠ "rayleigh") (h3 : ct ≠ "rician")
    (h4 : cfs ≠ []) :
    linear_capture ct cp cfs = ([], .error "Undefined channel type.") ∧
    (generate_am_capture ct cfg_n mi cp nm).channel_type = ct ∧
    (generate_fm_capture ct cfg_n mf cp nm).channel_type = ct ∧
    (generate_fsk_capture ct cfg_n ord mi ps b cp nm).channel_type = ct ∧
    (generate_noise_capture ct cfg_n cp nm).channel_type = ct := by
  obtain ⟨c, rest, rfl⟩ := List.exists_cons_of_ne_nil h4
  refine ⟨?_, rfl, rfl, rfl, rfl⟩
  simp [linear_capture, linear_center_loop, extract_channel_params,
    h1, h2, h3]

/-- Witness for the amended C5 at channel type "foo". -/
theorem channel_type_validation_witness :
    linear_capture "foo" (ChannelTuple.rayleigh 1 2 3 1 [0] [0]) [5] =
      ([], .error "Undefined channel type.") ∧
    (generate_am_capture "foo" 64 2 (ChannelTuple.rayleigh 1 2 3 1 [0] [0])
        "x").channel_type = "foo" ∧
    (generate_fm_capture "foo" 64 3 (ChannelTuple.rayleigh 1 2 3 1 [0] [0])
        "x").channel_type = "foo" ∧
    (generate_fsk_capture "foo" 64 2 2 1 4
        (ChannelTuple.rayleigh 1 2 3 1 [0] [0]) "x").channel_type = "foo" ∧
    (generate_noise_capture "foo" 64 (ChannelTuple.rayleigh 1 2 3 1 [0] [0])
        "x").channel_type = "foo" :=
  channel_type_validation "foo" "x" (ChannelTuple.rayleigh 1 2 3 1 [0] [0])
    [5] 64 2 1 2 3 4 (by decide) (by decide) (by decide) (by simp)

/-- Claim C6: for the rayleigh and rician channel variants, a sampled
tuple whose `path_delays` and `path_gains` have unequal lengths raises
before any modulate/filter/channel call is made for that capture (the
effect trace is empty) and no capture is written (no `save` effect, the
run ends in the assertion error). -/
theorem path_length_mismatch_rejected (s f p k : ℚ) (a : Int)
    (d g : List ℚ) (cfs : List ℚ)
    (hlen : d.length ≠ g.length) (hcfs : cfs ≠ []) :
    linear_capture "rayleigh" (ChannelTuple.rayleigh s f p a d g) cfs =
      ([], .error "Path delays and path gains must have the same length.") ∧
    linear_capture "rician" (ChannelTuple.rician s f p k a d g) cfs =
      ([], .error "Path delays and path gains must have the same length.") := by
  obtain ⟨c, rest, rfl⟩ := List.exists_cons_of_ne_nil hcfs
  constructor <;>
    simp [linear_capture, linear_center_loop, extract_channel_params, hlen]

/-- Witness for C6 with `path_delays = [0]`, `path_gains = []`. -/
theorem path_length_mismatch_rejected_witness :
    linear_capture "rayleigh" (ChannelTuple.rayleigh 1 2 3 1 [0] []) [5] =
      ([], .error "Path delays and path gains must have the same length.") ∧
    linear_capture "rician" (ChannelTuple.rician 1 2 3 4 1 [0] []) [5] =
      ([], .error "Path delays and path gains must have the same length.") :=
  path_length_mismatch_rejected 1 2 3 4 1 [0] [] [5] (by decide) (by simp)

theorem extract_preserves_offsets (ct : String) (cp : ChannelTuple)
    (p : LinExtract) (h : extract_channel_params ct cp = .ok p) :
    p.snr = cp.snr ∧ p.fo = cp.fo ∧ p.po = cp.po := by
  unfold extract_channel_params at h
  split at h
  · cases cp with
    | awgn s f po =>
      injection h with h2
      subst h2
      exact ⟨rfl, rfl, rfl⟩
    | rayleigh s f po a d g => simp at h
    | rician s f po k a d g => simp at h
  · split at h
    · cases cp with
      | awgn s f po => simp at h
      | rician s f po k a d g => simp at h
      | rayleigh s f po a d g =>
        split at h
        · rename_i heq
          injection heq with e1 e2 e3 e4 e5 e6
          subst e1; subst e2; subst e3; subst e4; subst e5; subst e6
          split at h
          · injection h with h2
            subst h2
            exact ⟨rfl, rfl, rfl⟩
          · simp at h
        · rename_i hx
          exact (hx s f po a d g rfl).elim
    · split at h
      · cases cp with
        | awgn s f po => simp at h
        | rayleigh s f po a d g => simp at h
        | rician s f po k a d g =>
          split at h
          · rename_i heq
            injection heq with e1 e2 e3 e4 e5 e6 e7
            subst e1; subst e2; subst e3; subst e4; subst e5; subst e6
            subst e7
            split at h
            · injection h with h2
              subst h2
              exact ⟨rfl, rfl, rfl⟩
            · simp at h
          · rename_i hx
            exact (hx s f po k a d g rfl).elim
      · simp at h

/-- Claim C9: for AM, FM, FSK and noise captures the frequency offset
passed to the channel and recorded in the metadata is `2π` times the
sampled configured value (`np.pi` as the IEEE double), whereas the linear
generator passes and records the sampled value unchanged. -/
theorem fo_two_pi_scaling (ct nm : String) (cfg_n ord : Nat) (ps : Int)
    (mi mf b m : ℚ) (cp : ChannelTuple) (sp : SigParams) (p : LinExtract)
    (h : extract_channel_params ct cp = .ok p) :
    (generate_am_capture ct cfg_n mi cp nm).fo = 2 * cp.fo * np_pi ∧
    (generate_fm_capture ct cfg_n mf cp nm).fo = 2 * cp.fo * np_pi ∧
    (generate_fsk_capture ct cfg_n ord m ps b cp nm).fo
        = 2 * cp.fo * np_pi ∧
    (generate_noise_capture ct cfg_n cp nm).fo = 2 * cp.fo * np_pi ∧
    (linear_metadata cfg_n ct nm p sp).fo = cp.fo := by
  refine ⟨rfl, rfl, rfl, rfl, ?_⟩
  have hfo := (extract_preserves_offsets ct cp p h).2.1
  simpa [linear_metadata] using hfo

/-- Witness for C9 on an AWGN tuple with frequency offset 3. -/
theorem fo_two_pi_scaling_witness :
    (generate_am_capture "awgn" 64 2 (ChannelTuple.awgn 10 3 1) "x").fo
        = 2 * (ChannelTuple.awgn 10 3 1).fo * np_pi ∧
    (generate_fm_capture "awgn" 64 3 (ChannelTuple.awgn 10 3 1) "x").fo
        = 2 * (ChannelTuple.awgn 10 3 1).fo * np_pi ∧
    (generate_fsk_capture "awgn" 64 4 7 1 5 (ChannelTuple.awgn 10 3 1)
        "x").fo = 2 * (ChannelTuple.awgn 10 3 1).fo * np_pi ∧
    (generate_noise_capture "awgn" 64 (ChannelTuple.awgn 10 3 1) "x").fo
        = 2 * (ChannelTuple.awgn 10 3 1).fo * np_pi ∧
    (linear_metadata 64 "awgn" "x" (LinExtract.awgnP 10 3 1)
        ⟨4, 1, 2, 3⟩).fo = (ChannelTuple.awgn 10 3 1).fo :=
  fo_two_pi_scaling "awgn" "x" 64 4 1 2 3 5 7 (ChannelTuple.awgn 10 3 1)
    ⟨4, 1, 2, 3⟩ (LinExtract.awgnP 10 3 1) rfl

/-- Claim C10: for every FSK capture and every noise capture the phase
offset passed to the channel and recorded in the metadata is exactly 0,
whatever phase offset the sampled channel tuple carries. -/
theorem fsk_noise_po_zero (ct nm nm2 : String) (cfg_n ord : Nat)
    (ps : Int) (b m : ℚ) (cp cp2 : ChannelTuple) :
    (generate_fsk_capture ct cfg_n ord m ps b cp nm).po = 0 ∧
    (generate_noise_capture ct cfg_n cp2 nm2).po = 0 :=
  ⟨rfl, rfl⟩

end RFGen
